import Mathlib

/-
Shallow embedding of the ocpp-client harness scripts
(scripts/simulate_meter_values.py and scripts/validate_config.py).

Modelling conventions:
* Python float arithmetic is modelled by exact rationals; the float
  rendering str(x) is modelled faithfully at integral values (the only
  values the claims evaluate strings at).
* A parsed JSON response is modelled by an envelope structure; the empty
  dict returned by the validator on timeout or exception is modelled by
  Option.none.
* Python truthiness of an optional numeric field (None and 0 both falsy)
  is modelled explicitly.
-/

/-- A sampledValue entry of a MeterValues payload
(simulate_meter_values.py, send_meter_values). -/
structure SampledValue where
  value : String
  measurand : String
  unit : String
deriving DecidableEq

/-- Python str of a rational; agrees with the Python rendering on
integral values, which are the only values whose rendering any claim
inspects. -/
def pyStr (q : ℚ) : String :=
  if q.den = 1 then toString q.num else toString q.num ++ "/" ++ toString q.den

/-- Python truthiness of an optional numeric argument: None and 0 (and
0.0) are falsy, every other number truthy. -/
def pyTruthy : Option ℚ → Bool
  | none => false
  | some q => decide (q ≠ 0)

/-- Python truthiness of the stored transaction id (an int or None). -/
def txTruthy : Option Int → Bool
  | none => false
  | some n => decide (n ≠ 0)

/-- One optional sampledValue entry: appended exactly when the argument
is truthy (simulate_meter_values.py lines 73-92). -/
def optEntry (o : Option ℚ) (measurand unitName : String) : List SampledValue :=
  match o with
  | none => []
  | some q => if q = 0 then [] else [⟨pyStr q, measurand, unitName⟩]

/-- The sampledValue list built by send_meter_values
(simulate_meter_values.py lines 60-92): energy and power entries always,
then current, voltage, temperature entries appended when truthy. -/
def sampledValues (energy_wh power_w : ℚ)
    (current_a voltage_v temperature_c : Option ℚ) : List SampledValue :=
  [⟨pyStr energy_wh, "Energy.Active.Import.Register", "Wh"⟩,
   ⟨pyStr power_w, "Power.Active.Import", "W"⟩]
  ++ optEntry current_a "Current.Import" "A"
  ++ optEntry voltage_v "Voltage" "V"
  ++ optEntry temperature_c "Temperature" "Celsius"

/-- The MeterValues message payload (message_data in
simulate_meter_values.py lines 94-103); the transactionId field is set
only when the stored id is truthy. -/
structure MeterValuesPayload where
  connectorId : Nat
  sampledValue : List SampledValue
  transactionId : Option Int
deriving DecidableEq

/-- send_meter_values payload construction
(simulate_meter_values.py lines 57-105). -/
def send_meter_values (tx : Option Int) (energy_wh power_w : ℚ)
    (current_a voltage_v temperature_c : Option ℚ) : MeterValuesPayload :=
  { connectorId := 1
    sampledValue := sampledValues energy_wh power_w current_a voltage_v temperature_c
    transactionId := if txTruthy tx then tx else none }

/-- Mutable state of the MeterValueSimulator relevant to transactions:
self.transaction_id, initialised to None. -/
structure SimState where
  transaction_id : Option Int
deriving DecidableEq

/-- Response payload to a StartTransaction call, with its optional
transactionId field. -/
structure SimPayload where
  transactionId : Option Int
deriving DecidableEq

/-- A parsed wire envelope received by the simulator: message-type code,
correlation id, payload. -/
structure SimEnvelope where
  msgType : Int
  id : String
  payload : SimPayload
deriving DecidableEq

/-- Response handling of start_transaction (simulate_meter_values.py
lines 49-55): on a message-type-3 result it reads
response_data[2]["transactionId"] (a KeyError, modelled as Except.error,
when the field is absent), stores it and returns True; on any other
message type it returns False. The request id is never compared with the
id of the received envelope. -/
def start_transaction_handle (request_id : String) (resp : SimEnvelope)
    (st : SimState) : Except String (Bool × SimState) :=
  if resp.msgType = 3 then
    match resp.payload.transactionId with
    | some t => Except.ok (true, { st with transaction_id := some t })
    | none => Except.error "KeyError: transactionId"
  else Except.ok (false, st)

/-- A StopTransaction call message payload
(simulate_meter_values.py lines 124-128). -/
structure StopMsg where
  action : String
  transactionId : Int
  meterStop : Int
deriving DecidableEq

/-- stop_transaction (simulate_meter_values.py lines 119-132): returns
immediately sending nothing when self.transaction_id is falsy (None or
0); otherwise sends exactly one StopTransaction message carrying the
stored id and the given meterStop. The state is returned unchanged. -/
def stop_transaction (st : SimState) (meter_stop : Int) :
    List StopMsg × SimState :=
  match st.transaction_id with
  | none => ([], st)
  | some t =>
    if t = 0 then ([], st)
    else ([⟨"StopTransaction", t, meter_stop⟩], st)

/-- Python int() truncation toward zero, on the exact-rational model of a
float. -/
def pyInt (q : ℚ) : Int := if 0 ≤ q then ⌊q⌋ else ⌈q⌉

/-- Python round(x, 1) modelled as rounding to the nearest tenth (the
tie-breaking of float round is not load-bearing for any claim). -/
def round1 (q : ℚ) : ℚ := (round (10 * q) : ℤ) / 10

/-- The three uniform random draws consumed by one loop iteration of
simulate_charging_session: random.uniform(-500, 500) for power,
random.uniform(-5, 10) for temperature, random.uniform(-5, 5) for
voltage. -/
structure TickDraws where
  powerVar : ℚ
  tempVar : ℚ
  voltVar : ℚ
deriving DecidableEq

/-- The values computed and reported by one loop iteration of
simulate_charging_session. -/
structure TickResult where
  newEnergy : ℚ
  energyReported : Int
  powerReported : Int
  currentReported : ℚ
  voltageReported : ℚ
  temperatureReported : ℚ
deriving DecidableEq

/-- One iteration of the simulate_charging_session loop
(simulate_meter_values.py lines 148-172), with base_power = 7400 and
voltage = 230 as set on lines 139-141: power is base plus the draw,
energy increases by power times interval over 3600, current is power
over the nominal voltage, temperature is 25 plus its draw, voltage is
230 plus its draw; reported energy and power go through int(), the other
three through round(x, 1). -/
def tick (energy_wh : ℚ) (interval_seconds : ℚ) (d : TickDraws) : TickResult :=
  let power_w : ℚ := 7400 + d.powerVar
  let energy_increment : ℚ := power_w * interval_seconds / 3600
  let energy2 : ℚ := energy_wh + energy_increment
  let current_a : ℚ := power_w / 230
  let temperature_c : ℚ := 25 + d.tempVar
  let voltage_v : ℚ := 230 + d.voltVar
  { newEnergy := energy2
    energyReported := pyInt energy2
    powerReported := pyInt power_w
    currentReported := round1 current_a
    voltageReported := round1 voltage_v
    temperatureReported := round1 temperature_c }

/-- The cumulative energy accumulator after running the
simulate_charging_session loop over a list of draw triples with a fixed
interval_seconds. -/
def runTicks (energy0 interval : ℚ) (ds : List TickDraws) : ℚ :=
  ds.foldl (fun e d => (tick e interval d).newEnergy) energy0

/-- A configurationKey entry of a GetConfiguration result
(validate_config.py). -/
structure ConfigKeyEntry where
  key : String
  value : Option String
  readonly : Option Bool
deriving DecidableEq

/-- A response payload seen by validate_config.py: optional status,
configurationKey and unknownKey fields, read with .get. -/
structure ConfPayload where
  status : Option String := none
  configurationKey : Option (List ConfigKeyEntry) := none
  unknownKey : Option (List String) := none
deriving DecidableEq

/-- A parsed wire envelope received by the validator. -/
structure ConfEnvelope where
  msgType : Int
  id : String
  payload : ConfPayload
deriving DecidableEq

/-- The value send_change_configuration hands back to its caller
(validate_config.py lines 56-74): the parsed received message verbatim,
or the empty dict (none) on timeout or exception. The freshly generated
request id is never compared with the id of the received message. -/
def send_change_configuration (request_id : String)
    (received : Option ConfEnvelope) : Option ConfEnvelope :=
  match received with
  | none => none
  | some env => some env

/-- The read-only rejection check of test_readonly_rejection
(validate_config.py lines 198-218): passes exactly when the response is
a message-type-3 result whose status field equals "Rejected". -/
def readonly_rejection_check (resp : Option ConfEnvelope) : Bool :=
  match resp with
  | some env =>
    if env.msgType = 3 then decide (env.payload.status = some "Rejected")
    else false
  | none => false

/-- The read-only keys of the oracle schema
(validate_config.py line 106). -/
def readonly_keys : List String :=
  ["ChargeProfileMaxStackLevel", "SupportedFeatureProfiles"]

/-- The per-attempt check of test_invalid_values (validate_config.py
lines 236-247): passes exactly when the response is a message-type-3
result whose status is "Rejected" or "NotSupported". -/
def invalid_value_check (resp : Option ConfEnvelope) : Bool :=
  match resp with
  | some env =>
    if env.msgType = 3 then
      decide (env.payload.status = some "Rejected") ||
        decide (env.payload.status = some "NotSupported")
    else false
  | none => false

/-- The key, value pairs sent by test_invalid_values
(validate_config.py lines 224-229). -/
def invalid_test_cases : List (String × String) :=
  [("HeartbeatInterval", "not-a-number"),
   ("LightIntensity", "150"),
   ("LocalAuthorizeOffline", "yes"),
   ("UnknownKey", "value")]

/-- test_invalid_values (validate_config.py lines 220-250): all_passed
starts True and is cleared by any attempt whose response fails the
per-attempt check; respond gives the response to each key, value
attempt. -/
def test_invalid_values (respond : String → String → Option ConfEnvelope) : Bool :=
  invalid_test_cases.foldl
    (fun acc kv => acc && invalid_value_check (respond kv.1 kv.2)) true

/-- The change-succeeded guard of test_persistence
(validate_config.py line 323): the change response is a message-type-3
result with status Accepted or RebootRequired. -/
def change_success (resp : Option ConfEnvelope) : Bool :=
  match resp with
  | some env =>
    decide (env.msgType = 3) &&
      (decide (env.payload.status = some "Accepted") ||
        decide (env.payload.status = some "RebootRequired"))
  | none => false

/-- test_persistence (validate_config.py lines 314-343), as a function
of the written value and the two responses: fails unless the change
succeeded; then passes exactly when the follow-up GetConfiguration
response is a message-type-3 result whose configurationKey list is
nonempty and whose first entry carries the written value. The script
instantiates test_value at "45"; test_change_configuration
(lines 150-196) applies the same round-trip check with "900". -/
def test_persistence (test_value : String)
    (changeResp getResp : Option ConfEnvelope) : Bool :=
  if change_success changeResp then
    match getResp with
    | some env =>
      if env.msgType = 3 then
        match env.payload.configurationKey.getD [] with
        | [] => false
        | ck :: _ => decide (ck.value = some test_value)
      else false
    | none => false
  else false

/-- C1 counterexample: a result envelope whose id differs from the
freshly generated request id is returned to the caller verbatim by
send_change_configuration, so the mismatched result is forwarded as the
call result and no ProtocolViolation failure occurs. -/
theorem C1_counterexample :
    ("mismatched-id" : String) ≠ "fresh-id" ∧
    send_change_configuration "fresh-id" (some ⟨3, "mismatched-id", ⟨none, none, none⟩⟩) =
      some ⟨3, "mismatched-id", ⟨none, none, none⟩⟩ :=
  ⟨by decide, rfl⟩

/-- C1 (amended): the harness performs no id correlation at all.
send_change_configuration returns the parsed received message as the
call result whatever its id is, and the start_transaction response
handling never consults the request id; no ProtocolViolation outcome
exists. -/
theorem C1_amended :
    (∀ reqId : String, ∀ env : ConfEnvelope,
      send_change_configuration reqId (some env) = some env) ∧
    (∀ reqId1 reqId2 : String, ∀ resp : SimEnvelope, ∀ st : SimState,
      start_transaction_handle reqId1 resp st =
        start_transaction_handle reqId2 resp st) :=
  ⟨fun _ _ => rfl, fun _ _ _ _ => rfl⟩

/-- C2: send_meter_values at (5000, 3700, 16, 230, 25) produces a
sampledValue list containing the five claimed measurand, value, unit
entries. -/
theorem C2_meter_values_literal (tx : Option Int) :
    (⟨"5000", "Energy.Active.Import.Register", "Wh"⟩ : SampledValue) ∈
      (send_meter_values tx 5000 3700 (some 16) (some 230) (some 25)).sampledValue ∧
    (⟨"3700", "Power.Active.Import", "W"⟩ : SampledValue) ∈
      (send_meter_values tx 5000 3700 (some 16) (some 230) (some 25)).sampledValue ∧
    (⟨"16", "Current.Import", "A"⟩ : SampledValue) ∈
      (send_meter_values tx 5000 3700 (some 16) (some 230) (some 25)).sampledValue ∧
    (⟨"230", "Voltage", "V"⟩ : SampledValue) ∈
      (send_meter_values tx 5000 3700 (some 16) (some 230) (some 25)).sampledValue ∧
    (⟨"25", "Temperature", "Celsius"⟩ : SampledValue) ∈
      (send_meter_values tx 5000 3700 (some 16) (some 230) (some 25)).sampledValue := by
  simp only [send_meter_values]
  decide

/-- C4 counterexample: after a start_transaction success that stores the
server-assigned transaction id 0, the session is active, yet
stop_transaction issues no StopTransaction call because the Python
truthiness test treats the stored id 0 like None. -/
theorem C4_counterexample :
    start_transaction_handle "r0" ⟨3, "r0", ⟨some 0⟩⟩ ⟨none⟩ =
      Except.ok (true, ⟨some 0⟩) ∧
    stop_transaction ⟨some 0⟩ 1234 = ([], ⟨some 0⟩) ∧
    ([] : List StopMsg) ≠ [⟨"StopTransaction", 0, 1234⟩] :=
  ⟨rfl, rfl, by decide⟩

/-- C4 (amended): calling stop with no transaction ever started sends no
message and returns with the state unchanged; with a stored nonzero
transaction id it issues exactly one StopTransaction call carrying that
id and the given meterStop; a stored transaction id of 0 is treated like
no transaction and issues no call. -/
theorem C4_amended (m : Int) :
    stop_transaction ⟨none⟩ m = ([], ⟨none⟩) ∧
    (∀ t : Int, t ≠ 0 →
      stop_transaction ⟨some t⟩ m = ([⟨"StopTransaction", t, m⟩], ⟨some t⟩)) ∧
    stop_transaction ⟨some 0⟩ m = ([], ⟨some 0⟩) := by
  refine ⟨rfl, ?_, rfl⟩
  intro t ht
  simp [stop_transaction, ht]

/-- C4 witness: the amended statement evaluated at meterStop 500 with no
transaction and with stored id 7. -/
theorem C4_witness :
    stop_transaction ⟨none⟩ 500 = ([], ⟨none⟩) ∧
    stop_transaction ⟨some 7⟩ 500 = ([⟨"StopTransaction", 7, 500⟩], ⟨some 7⟩) :=
  ⟨(C4_amended 500).1, (C4_amended 500).2.1 7 (by decide)⟩

/-- C6 counterexample: a message-type-3 success result without a
transactionId field makes start_transaction raise a KeyError instead of
returning False with the session left Idle. -/
theorem C6_counterexample :
    start_transaction_handle "r1" ⟨3, "r1", ⟨none⟩⟩ ⟨none⟩ =
      Except.error "KeyError: transactionId" ∧
    start_transaction_handle "r1" ⟨3, "r1", ⟨none⟩⟩ ⟨none⟩ ≠
      Except.ok (false, ⟨none⟩) :=
  ⟨rfl, by simp [start_transaction_handle]⟩

/-- C6 (amended): on a message-type-3 result carrying a transactionId,
start stores it and returns True; on a non-type-3 response it returns
False with the state unchanged; on a type-3 result without a
transactionId field it raises KeyError rather than returning False. -/
theorem C6_amended (reqId : String) (resp : SimEnvelope) (st : SimState) :
    (∀ t : Int, resp.msgType = 3 → resp.payload.transactionId = some t →
      start_transaction_handle reqId resp st =
        Except.ok (true, { st with transaction_id := some t })) ∧
    (resp.msgType ≠ 3 →
      start_transaction_handle reqId resp st = Except.ok (false, st)) ∧
    (resp.msgType = 3 → resp.payload.transactionId = none →
      start_transaction_handle reqId resp st =
        Except.error "KeyError: transactionId") := by
  refine ⟨?_, ?_, ?_⟩
  · intro t h3 hid
    simp [start_transaction_handle, h3, hid]
  · intro h3
    simp [start_transaction_handle, h3]
  · intro h3 hid
    simp [start_transaction_handle, h3, hid]

/-- C6 witness: the amended statement evaluated at a result carrying
transaction id 42 and at an error-envelope response. -/
theorem C6_witness :
    start_transaction_handle "r2" ⟨3, "r2", ⟨some 42⟩⟩ ⟨none⟩ =
      Except.ok (true, ⟨some 42⟩) ∧
    start_transaction_handle "r3" ⟨4, "r3", ⟨none⟩⟩ ⟨some 1⟩ =
      Except.ok (false, ⟨some 1⟩) :=
  ⟨(C6_amended "r2" ⟨3, "r2", ⟨some 42⟩⟩ ⟨none⟩).1 42 rfl rfl,
   (C6_amended "r3" ⟨4, "r3", ⟨none⟩⟩ ⟨some 1⟩).2.1 (by decide)⟩

/-- Unfolding lemma: running the session loop on no draws leaves the
accumulator unchanged. -/
theorem runTicks_nil (e0 i : ℚ) : runTicks e0 i [] = e0 := rfl

/-- Unfolding lemma: one loop iteration adds power times interval over
3600 to the accumulator before the remaining iterations run. -/
theorem runTicks_cons (e0 i : ℚ) (d : TickDraws) (ds : List TickDraws) :
    runTicks e0 i (d :: ds) =
      runTicks (e0 + (7400 + d.powerVar) * i / 3600) i ds := rfl

/-- The accumulator after the loop is the start value plus the sum of
the per-iteration increments. -/
theorem runTicks_sum (e0 i : ℚ) (ds : List TickDraws) :
    runTicks e0 i ds =
      e0 + ((ds.map fun d => (7400 + d.powerVar) * i / 3600).sum) := by
  induction ds generalizing e0 with
  | nil => simp [runTicks]
  | cons d ds ih =>
    rw [runTicks_cons, ih]
    simp only [List.map_cons, List.sum_cons]
    ring

/-- With a nonnegative interval and power draws no lower than -500,
every additional iteration can only increase the accumulator. -/
theorem runTicks_take_mono (i : ℚ) (hi : 0 ≤ i) (ds : List TickDraws)
    (hb : ∀ d ∈ ds, -500 ≤ d.powerVar) (e0 : ℚ) (k : ℕ) :
    runTicks e0 i (ds.take k) ≤ runTicks e0 i (ds.take (k + 1)) := by
  induction ds generalizing e0 k with
  | nil => simp [runTicks]
  | cons d ds ih =>
    cases k with
    | zero =>
      have hd : -500 ≤ d.powerVar := hb d (List.mem_cons_self d ds)
      have h1 : (0 : ℚ) ≤ 7400 + d.powerVar := by linarith
      have h2 : (0 : ℚ) ≤ (7400 + d.powerVar) * i / 3600 :=
        div_nonneg (mul_nonneg h1 hi) (by norm_num)
      calc runTicks e0 i ((d :: ds).take 0) = e0 := rfl
        _ ≤ e0 + (7400 + d.powerVar) * i / 3600 := by linarith
        _ = runTicks e0 i ((d :: ds).take 1) := rfl
    | succ n =>
      have hb2 : ∀ x ∈ ds, -500 ≤ x.powerVar :=
        fun x hx => hb x (List.mem_cons_of_mem d hx)
      simpa [List.take_succ_cons, runTicks_cons] using
        ih hb2 (e0 + (7400 + d.powerVar) * i / 3600) n

/-- C3: during a simulated session with nonnegative interval and uniform
power draws in [-500, 500], the cumulative energy accumulator is
non-decreasing from each tick to the next, and after all ticks it equals
the starting energy plus the sum over the ticks of power times interval
over 3600. -/
theorem C3_energy_monotone_and_sum (e0 i : ℚ) (ds : List TickDraws)
    (hi : 0 ≤ i)
    (hb : ∀ d ∈ ds, -500 ≤ d.powerVar ∧ d.powerVar ≤ 500) :
    (∀ k : ℕ, runTicks e0 i (ds.take k) ≤ runTicks e0 i (ds.take (k + 1))) ∧
    runTicks e0 i ds =
      e0 + ((ds.map fun d => (7400 + d.powerVar) * i / 3600).sum) :=
  ⟨fun k => runTicks_take_mono i hi ds (fun d hd => (hb d hd).1) e0 k,
   runTicks_sum e0 i ds⟩

/-- C3 witness: the statement evaluated at start energy 1000, interval
10 and two concrete draws. -/
theorem C3_witness :
    runTicks 1000 10 (([⟨100, 1, 2⟩, ⟨-200, 3, 4⟩] : List TickDraws).take 1) ≤
      runTicks 1000 10 (([⟨100, 1, 2⟩, ⟨-200, 3, 4⟩] : List TickDraws).take 2) ∧
    runTicks 1000 10 ([⟨100, 1, 2⟩, ⟨-200, 3, 4⟩] : List TickDraws) =
      1000 + ((([⟨100, 1, 2⟩, ⟨-200, 3, 4⟩] : List TickDraws).map
        fun d => (7400 + d.powerVar) * 10 / 3600).sum) :=
  ⟨(C3_energy_monotone_and_sum 1000 10 [⟨100, 1, 2⟩, ⟨-200, 3, 4⟩]
      (by norm_num)
      (by intro d hd; simp [List.mem_cons] at hd; rcases hd with rfl | rfl <;> norm_num)).1 1,
   (C3_energy_monotone_and_sum 1000 10 [⟨100, 1, 2⟩, ⟨-200, 3, 4⟩]
      (by norm_num)
      (by intro d hd; simp [List.mem_cons] at hd; rcases hd with rfl | rfl <;> norm_num)).2⟩

/-- C5: one tick of the simulated session computes power as 7400 plus
the power draw (hence within [6900, 7900] for draws within [-500, 500]),
current as power over the nominal 230 V, voltage as 230 plus its draw
(within [225, 235]), temperature as 25 plus its draw (within [20, 35]),
and increments the energy accumulator by power times interval over 3600;
reported energy and power pass through int() truncation (floor on these
nonnegative readings) and the other three through rounding to one
decimal place. -/
theorem C5_tick_formulas (e i : ℚ) (d : TickDraws)
    (hp1 : -500 ≤ d.powerVar) (hp2 : d.powerVar ≤ 500)
    (ht1 : -5 ≤ d.tempVar) (ht2 : d.tempVar ≤ 10)
    (hv1 : -5 ≤ d.voltVar) (hv2 : d.voltVar ≤ 5) :
    (tick e i d).newEnergy = e + (7400 + d.powerVar) * i / 3600 ∧
    (tick e i d).powerReported = pyInt (7400 + d.powerVar) ∧
    (tick e i d).powerReported = ⌊(7400 + d.powerVar : ℚ)⌋ ∧
    6900 ≤ 7400 + d.powerVar ∧ 7400 + d.powerVar ≤ 7900 ∧
    (tick e i d).currentReported = round1 ((7400 + d.powerVar) / 230) ∧
    (∃ z : ℤ, (tick e i d).currentReported = (z : ℚ) / 10) ∧
    (tick e i d).voltageReported = round1 (230 + d.voltVar) ∧
    (∃ z : ℤ, (tick e i d).voltageReported = (z : ℚ) / 10) ∧
    225 ≤ 230 + d.voltVar ∧ 230 + d.voltVar ≤ 235 ∧
    (tick e i d).temperatureReported = round1 (25 + d.tempVar) ∧
    (∃ z : ℤ, (tick e i d).temperatureReported = (z : ℚ) / 10) ∧
    20 ≤ 25 + d.tempVar ∧ 25 + d.tempVar ≤ 35 ∧
    (tick e i d).energyReported = pyInt (e + (7400 + d.powerVar) * i / 3600) := by
  have hfloor : (tick e i d).powerReported = ⌊(7400 + d.powerVar : ℚ)⌋ := by
    show pyInt (7400 + d.powerVar) = ⌊(7400 + d.powerVar : ℚ)⌋
    rw [pyInt, if_pos (by linarith)]
  refine ⟨rfl, rfl, hfloor, by linarith, by linarith, rfl,
    ⟨round (10 * ((7400 + d.powerVar) / 230)), rfl⟩, rfl,
    ⟨round (10 * (230 + d.voltVar)), rfl⟩, by linarith, by linarith, rfl,
    ⟨round (10 * (25 + d.tempVar)), rfl⟩, by linarith, by linarith, rfl⟩

/-- C5 witness: the statement evaluated at energy 1000, interval 10 and
the draw triple (100, 5, -2). -/
theorem C5_witness :
    (tick 1000 10 ⟨100, 5, -2⟩).newEnergy = 1000 + (7400 + 100) * 10 / 3600 ∧
    (tick 1000 10 ⟨100, 5, -2⟩).powerReported = pyInt (7400 + 100) ∧
    (tick 1000 10 ⟨100, 5, -2⟩).currentReported = round1 ((7400 + 100) / 230) ∧
    (tick 1000 10 ⟨100, 5, -2⟩).voltageReported = round1 (230 + -2) ∧
    (tick 1000 10 ⟨100, 5, -2⟩).temperatureReported = round1 (25 + 5) := by
  have h := C5_tick_formulas 1000 10 ⟨100, 5, -2⟩ (by norm_num) (by norm_num)
    (by norm_num) (by norm_num) (by norm_num) (by norm_num)
  exact ⟨h.1, h.2.1, h.2.2.2.2.2.1, h.2.2.2.2.2.2.2.1, h.2.2.2.2.2.2.2.2.2.2.2.1⟩

/-- An optional sampledValue entry contributes an element with a given
measurand exactly when the argument is truthy and the measurand is the
one the entry is built with. -/
theorem measurand_mem_optEntry (o : Option ℚ) (m u tgt : String) :
    (∃ sv ∈ optEntry o m u, sv.measurand = tgt) ↔
      (pyTruthy o = true ∧ m = tgt) := by
  rcases o with _ | q
  · simp [optEntry, pyTruthy]
  · by_cases h : q = 0 <;> simp [optEntry, pyTruthy, h]

/-- Which measurands occur in the sampledValue list built by
send_meter_values: energy and power always, the optional three exactly
when their argument is truthy. -/
theorem measurand_mem_sampledValues (e p : ℚ) (c v t : Option ℚ) (tgt : String) :
    (∃ sv ∈ sampledValues e p c v t, sv.measurand = tgt) ↔
      ("Energy.Active.Import.Register" = tgt ∨ "Power.Active.Import" = tgt ∨
       (pyTruthy c = true ∧ "Current.Import" = tgt) ∨
       (pyTruthy v = true ∧ "Voltage" = tgt) ∨
       (pyTruthy t = true ∧ "Temperature" = tgt)) := by
  simp only [sampledValues, List.append_assoc, List.mem_append, List.mem_cons,
    List.not_mem_nil, or_false, or_and_right, exists_or, exists_eq_left,
    measurand_mem_optEntry]
  tauto

/-- C10: in the send_meter_values payload, the Current.Import, Voltage
and Temperature entries appear exactly when the corresponding argument
is truthy (so 0 is omitted exactly like None), the energy and power
entries always appear, and the transactionId field appears exactly when
a truthy transaction id is stored (and then carries it). -/
theorem C10_optional_entries (e p : ℚ) (c v t : Option ℚ) (tx : Option Int) :
    ((∃ sv ∈ (send_meter_values tx e p c v t).sampledValue,
        sv.measurand = "Current.Import") ↔ pyTruthy c = true) ∧
    ((∃ sv ∈ (send_meter_values tx e p c v t).sampledValue,
        sv.measurand = "Voltage") ↔ pyTruthy v = true) ∧
    ((∃ sv ∈ (send_meter_values tx e p c v t).sampledValue,
        sv.measurand = "Temperature") ↔ pyTruthy t = true) ∧
    (∃ sv ∈ (send_meter_values tx e p c v t).sampledValue,
        sv.measurand = "Energy.Active.Import.Register") ∧
    (∃ sv ∈ (send_meter_values tx e p c v t).sampledValue,
        sv.measurand = "Power.Active.Import") ∧
    sampledValues e p (some 0) v t = sampledValues e p none v t ∧
    sampledValues e p c (some 0) t = sampledValues e p c none t ∧
    sampledValues e p c v (some 0) = sampledValues e p c v none ∧
    ((send_meter_values tx e p c v t).transactionId = none ↔
      txTruthy tx = false) ∧
    (txTruthy tx = true → (send_meter_values tx e p c v t).transactionId = tx) := by
  refine ⟨?_, ?_, ?_, ?_, ?_, ?_, ?_, ?_, ?_, ?_⟩
  · simp [send_meter_values, measurand_mem_sampledValues]
  · simp [send_meter_values, measurand_mem_sampledValues]
  · simp [send_meter_values, measurand_mem_sampledValues]
  · simp [send_meter_values, measurand_mem_sampledValues]
  · simp [send_meter_values, measurand_mem_sampledValues]
  · simp [sampledValues, optEntry]
  · simp [sampledValues, optEntry]
  · simp [sampledValues, optEntry]
  · rcases tx with _ | n
    · simp [send_meter_values, txTruthy]
    · by_cases hn : n = 0 <;> simp [send_meter_values, txTruthy, hn]
  · rcases tx with _ | n
    · simp [txTruthy]
    · by_cases hn : n = 0 <;> simp [send_meter_values, txTruthy, hn]

/-- C10 witness: the important truthiness instance evaluated concretely:
with current 0, voltage None, temperature 25 and stored id 0, only the
temperature optional entry appears and no transactionId is set. -/
theorem C10_witness :
    ((∃ sv ∈ (send_meter_values (some 0) 1 2 (some 0) none (some 25)).sampledValue,
        sv.measurand = "Temperature") ↔ pyTruthy (some 25) = true) ∧
    ((∃ sv ∈ (send_meter_values (some 0) 1 2 (some 0) none (some 25)).sampledValue,
        sv.measurand = "Current.Import") ↔ pyTruthy (some 0) = true) ∧
    (send_meter_values (some 0) 1 2 (some 0) none (some 25)).transactionId = none :=
  ⟨(C10_optional_entries 1 2 (some 0) none (some 25) (some 0)).2.2.1,
   (C10_optional_entries 1 2 (some 0) none (some 25) (some 0)).1,
   ((C10_optional_entries 1 2 (some 0) none (some 25) (some 0)).2.2.2.2.2.2.2.2.1).mpr rfl⟩

/-- C7: the read-only rejection check passes exactly on a message-type-3
result whose status is Rejected; Accepted, RebootRequired and
NotSupported all fail it; ChargeProfileMaxStackLevel is among the keys
the oracle marks read-only. -/
theorem C7_readonly_check (resp : Option ConfEnvelope) :
    ("ChargeProfileMaxStackLevel" ∈ readonly_keys) ∧
    (readonly_rejection_check resp = true ↔
      ∃ env : ConfEnvelope, resp = some env ∧ env.msgType = 3 ∧
        env.payload.status = some "Rejected") ∧
    (∀ env : ConfEnvelope,
      env.payload.status = some "Accepted" ∨
        env.payload.status = some "RebootRequired" ∨
        env.payload.status = some "NotSupported" →
      readonly_rejection_check (some env) = false) := by
  refine ⟨by decide, ?_, ?_⟩
  · rcases resp with _ | env
    · simp [readonly_rejection_check]
    · by_cases h3 : env.msgType = 3 <;> simp [readonly_rejection_check, h3]
  · intro env hs
    rcases hs with h | h | h <;> by_cases h3 : env.msgType = 3 <;>
      simp [readonly_rejection_check, h3, h]

/-- C7 witness: the check evaluated on a Rejected result and on an
Accepted result. -/
theorem C7_witness :
    readonly_rejection_check (some ⟨3, "a", ⟨some "Rejected", none, none⟩⟩) = true ∧
    readonly_rejection_check (some ⟨3, "b", ⟨some "Accepted", none, none⟩⟩) = false :=
  ⟨((C7_readonly_check (some ⟨3, "a", ⟨some "Rejected", none, none⟩⟩)).2.1).mpr
      ⟨⟨3, "a", ⟨some "Rejected", none, none⟩⟩, rfl, rfl, rfl⟩,
   (C7_readonly_check (some ⟨3, "b", ⟨some "Accepted", none, none⟩⟩)).2.2
      ⟨3, "b", ⟨some "Accepted", none, none⟩⟩ (Or.inl rfl)⟩

/-- C8: test_invalid_values passes exactly when every one of its four
out-of-domain attempts gets a passing response; a per-attempt response
passes exactly when it is a message-type-3 result with status Rejected
or NotSupported, and an Accepted status always fails. -/
theorem C8_invalid_value_check (respond : String → String → Option ConfEnvelope) :
    (test_invalid_values respond = true ↔
      ∀ kv ∈ invalid_test_cases, invalid_value_check (respond kv.1 kv.2) = true) ∧
    (∀ resp : Option ConfEnvelope, invalid_value_check resp = true ↔
      ∃ env : ConfEnvelope, resp = some env ∧ env.msgType = 3 ∧
        (env.payload.status = some "Rejected" ∨
          env.payload.status = some "NotSupported")) ∧
    (∀ env : ConfEnvelope, env.payload.status = some "Accepted" →
      invalid_value_check (some env) = false) := by
  refine ⟨?_, ?_, ?_⟩
  · simp only [test_invalid_values, invalid_test_cases, List.foldl,
      Bool.and_eq_true, true_and, List.mem_cons, List.not_mem_nil, or_false,
      forall_eq_or_imp, forall_eq]
    tauto
  · intro resp
    rcases resp with _ | env
    · simp [invalid_value_check]
    · by_cases h3 : env.msgType = 3 <;> simp [invalid_value_check, h3]
  · intro env h
    by_cases h3 : env.msgType = 3 <;> simp [invalid_value_check, h3, h]

/-- C8 witness: the per-attempt check evaluated on an Accepted result
fails. -/
theorem C8_witness :
    invalid_value_check (some ⟨3, "c", ⟨some "Accepted", none, none⟩⟩) = false :=
  (C8_invalid_value_check fun _ _ => none).2.2
    ⟨3, "c", ⟨some "Accepted", none, none⟩⟩ rfl

/-- C9: once the change response is a message-type-3 result with status
Accepted or RebootRequired, the persistence round-trip check passes
exactly when the follow-up GetConfiguration response is a
message-type-3 result whose first configurationKey entry carries the
written value. -/
theorem C9_persistence_roundtrip (v : String) (cenv : ConfEnvelope)
    (getResp : Option ConfEnvelope) (h3 : cenv.msgType = 3)
    (hs : cenv.payload.status = some "Accepted" ∨
      cenv.payload.status = some "RebootRequired") :
    test_persistence v (some cenv) getResp = true ↔
      ∃ env : ConfEnvelope, ∃ ck : ConfigKeyEntry, ∃ rest : List ConfigKeyEntry,
        getResp = some env ∧ env.msgType = 3 ∧
        env.payload.configurationKey.getD [] = ck :: rest ∧
        ck.value = some v := by
  have hcs : change_success (some cenv) = true := by
    rcases hs with h | h <;> simp [change_success, h3, h]
  rcases getResp with _ | env
  · simp [test_persistence, hcs]
  · by_cases hm : env.msgType = 3
    · rcases hck : env.payload.configurationKey.getD [] with _ | ⟨ck, rest⟩
      · simp [test_persistence, hcs, hm, hck]
      · simp [test_persistence, hcs, hm, hck, List.cons.injEq, eq_comm]
    · simp [test_persistence, hcs, hm]

/-- C9 witness: the round-trip check evaluated at written value 45 with
an Accepted change response and a GetConfiguration result returning
45. -/
theorem C9_witness :
    test_persistence "45"
      (some ⟨3, "c1", ⟨some "Accepted", none, none⟩⟩)
      (some ⟨3, "g1", ⟨none,
        some [⟨"MeterValueSampleInterval", some "45", none⟩], none⟩⟩) = true :=
  (C9_persistence_roundtrip "45" ⟨3, "c1", ⟨some "Accepted", none, none⟩⟩
      (some ⟨3, "g1", ⟨none,
        some [⟨"MeterValueSampleInterval", some "45", none⟩], none⟩⟩)
      rfl (Or.inl rfl)).mpr
    ⟨⟨3, "g1", ⟨none, some [⟨"MeterValueSampleInterval", some "45", none⟩], none⟩⟩,
     ⟨"MeterValueSampleInterval", some "45", none⟩, [], rfl, rfl, rfl, rfl⟩
